import Mathlib

/-!
Shallow embedding of the xCOMET persistent server (`src/python/server.py`):
the request/response data model, the three scoring endpoints
(`/evaluate`, `/detect_errors`, `/batch_evaluate`), the `/stats` endpoint,
and the process-wide statistics counters, together with theorems checking
the specified behaviour against this embedding.

Modelling conventions:
- Python floats carrying quality scores are modelled as rationals (`ℚ`).
- `model.predict` is an opaque external collaborator; it is a field of the
  `Env` record, returning `Except` to model a raised exception.
- Wall-clock inference duration is an explicit parameter `t` (ms) of each
  endpoint, standing for the measured `round((time.time()-start)*1000)`.
- Fallible endpoint handlers return `Except HTTPErr result`, paired with
  the post-call server state.
-/

/-- HTTP error: status code and detail string (FastAPI `HTTPException`). -/
structure HTTPErr where
  status : Nat
  detail : String
deriving DecidableEq, Repr

/-- Raw error span as found in model metadata: a loosely structured record
whose fields may be absent (read with `span.get(key, default)` in the
source). The source key `end` is called `stop` here (`end` is a Lean
keyword). -/
structure RawSpan where
  text : Option String
  start : Option Int
  stop : Option Int
  severity : Option String
deriving DecidableEq, Repr

/-- Normalised error span built by the score extractor
(`server.py:187-193`): keys `text`, `start`, `end` (here `stop`),
`severity`. -/
structure ErrorSpan where
  text : String
  start : Int
  stop : Int
  severity : String
deriving DecidableEq, Repr

/-- One item of the `data` list passed to `model.predict`: keys `src`,
`mt`, and optionally `ref`; `ref := none` models the key being omitted. -/
structure DataItem where
  src : String
  mt : String
  ref : Option String
deriving DecidableEq, Repr

/-- Raw model output: `output.scores` and `output.metadata`. A metadata
entry is `none` when the per-item metadata is falsy or carries no
`error_spans` key, and `some spans` when `error_spans` is present. -/
structure ModelOutput where
  scores : List ℚ
  metadata : List (Option (List RawSpan))
deriving DecidableEq, Repr

/-- Server environment: the configured model name (`XCOMET_MODEL`) and the
external scoring function, invoked as `predict data batch_size gpus`; an
`Except.error` models the scoring call raising. -/
structure Env where
  modelName : String
  predict : List DataItem → Nat → Nat → Except String ModelOutput

/-- The counters of the `_stats` dict that the endpoints mutate
(`server.py:29-36`); the wall-clock fields `start_time` and
`model_load_time` are not part of the counter model. -/
structure Stats where
  evaluation_count : Nat
  batch_count : Nat
  total_pairs_evaluated : Nat
  total_inference_time_ms : Nat
deriving DecidableEq, Repr

/-- Process state: whether the lazily loaded model has been constructed,
how many times `model.predict` has been invoked (trace instrumentation
used to state non-invocation properties), and the stats counters. -/
structure ServerState where
  modelLoaded : Bool
  predictCalls : Nat
  stats : Stats
deriving DecidableEq, Repr

/-- Request body of POST /evaluate (`server.py:39-43`). -/
structure EvaluateRequest where
  source : String
  translation : String
  reference : Option String
  use_gpu : Bool
deriving DecidableEq, Repr

/-- One source/translation pair of a batch request (`server.py:46-49`). -/
structure TranslationPair where
  source : String
  translation : String
  reference : Option String
deriving DecidableEq, Repr

/-- Request body of POST /batch_evaluate (`server.py:52-55`). -/
structure BatchEvaluateRequest where
  pairs : List TranslationPair
  batch_size : Nat
  use_gpu : Bool
deriving DecidableEq, Repr

/-- Request body of POST /detect_errors (`server.py:58-63`). -/
structure DetectErrorsRequest where
  source : String
  translation : String
  reference : Option String
  min_severity : String
  use_gpu : Bool
deriving DecidableEq, Repr

/-- Python truthiness of an optional string field
(`if not request.reference:`): both `None` and `""` are falsy. -/
def refTruthy : Option String → Bool
  | none => false
  | some s => !s.isEmpty

/-- `get_model` (`server.py:66-83`): lazily constructs the model; after the
call the model handle is loaded. Construction cost and load-time stats are
not modelled. -/
def get_model (st : ServerState) : ServerState :=
  { st with modelLoaded := true }

/-- Python `str.lower()`, modelled characterwise over the char list. -/
def strToLower (s : String) : String :=
  String.mk (s.toList.map Char.toLower)

/-- Python substring membership `needle in haystack`. -/
def strContainsSub (haystack needle : String) : Bool :=
  haystack.toList.tails.any (fun tl => needle.toList.isPrefixOf tl)

/-- `model_requires_reference` (`server.py:86-89`): case-insensitive
substring match against the fixed list of reference-mandatory models. -/
def model_requires_reference (model_name : String) : Bool :=
  ["wmt22-comet-da", "wmt21-comet-da", "wmt20-comet-da"].any
    (fun r => strContainsSub (strToLower model_name) r)

/-- Quality label derivation (`server.py:196-203`). -/
def quality (score : ℚ) : String :=
  if score ≥ 0.9 then "Excellent"
  else if score ≥ 0.7 then "Good"
  else if score ≥ 0.5 then "Fair"
  else "Poor"

/-- Pads a value below 1000 to three digits; helper of `fmt3`. -/
def pad3 (k : Nat) : String :=
  if k < 10 then "00" ++ toString k
  else if k < 100 then "0" ++ toString k
  else toString k

/-- Three-decimal rendering of a score, abstracting Python float
formatting with a three-digit format spec; only used inside summary
strings, which no specified property inspects numerically. -/
def fmt3 (q : ℚ) : String :=
  let n : Int := round (q * 1000)
  (if n < 0 then "-" else "") ++ toString (n.natAbs / 1000) ++ "." ++ pad3 (n.natAbs % 1000)

/-- Maps raw metadata spans to normalised error spans
(`server.py:186-193` and `server.py:313-320`), with the documented
per-field defaults. -/
def extractSpans : Option (List RawSpan) → List ErrorSpan
  | none => []
  | some spans =>
      spans.map (fun s =>
        { text := s.text.getD "", start := s.start.getD 0,
          stop := s.stop.getD 0, severity := s.severity.getD "minor" })

/-- Success body of POST /evaluate (`server.py:205-209`). -/
structure EvalResult where
  score : ℚ
  errors : List ErrorSpan
  summary : String
deriving DecidableEq, Repr

/-- Detail string of the single-pair reference rejection
(`server.py:158-161`). -/
def evalRefDetail (model_name : String) : String :=
  "Model \"" ++ model_name ++ "\" requires a reference translation."

/-- The singleton `data` list built by /evaluate (`server.py:163-168`):
the `ref` key is set only when the reference is truthy. -/
def evalData (req : EvaluateRequest) : List DataItem :=
  [{ src := req.source, mt := req.translation,
     ref := if refTruthy req.reference then req.reference else none }]

/-- Stats update of a successful /evaluate (`server.py:175-178`). -/
def recordEval (s : Stats) (t : Nat) : Stats :=
  { s with evaluation_count := s.evaluation_count + 1,
           total_pairs_evaluated := s.total_pairs_evaluated + 1,
           total_inference_time_ms := s.total_inference_time_ms + t }

/-- POST /evaluate (`server.py:148-214`). `t` is the measured inference
duration in ms. Note the source order: `get_model()` runs first, then the
reference validation, then `predict`, then the stats update, and only then
the read of `output.scores[0]` (which raises IndexError when `scores` is
empty, surfaced as a 500 response). -/
def evaluate (env : Env) (req : EvaluateRequest) (t : Nat) (st : ServerState) :
    Except HTTPErr EvalResult × ServerState :=
  let st1 := get_model st
  if !refTruthy req.reference && model_requires_reference env.modelName then
    (.error ⟨400, evalRefDetail env.modelName⟩, st1)
  else
    let st2 := { st1 with predictCalls := st1.predictCalls + 1 }
    match env.predict (evalData req) 1 (if req.use_gpu then 1 else 0) with
    | .error e => (.error ⟨500, e⟩, st2)
    | .ok output =>
        let st3 := { st2 with stats := recordEval st2.stats t }
        match output.scores with
        | [] => (.error ⟨500, "list index out of range"⟩, st3)
        | score :: _ =>
            let errors := match output.metadata with
              | [] => []
              | md :: _ => extractSpans md
            (.ok { score := score, errors := errors,
                   summary := quality score ++ " quality (score: " ++ fmt3 score ++
                     ") with " ++ toString errors.length ++ " error(s) detected." }, st3)

/-- Counts per severity bucket (`server.py:240`). -/
structure SevCounts where
  minor : Nat
  major : Nat
  critical : Nat
deriving DecidableEq, Repr

/-- The `severity_order` dict lookup (`server.py:231`); `none` models a
missing key. -/
def severityOrder (s : String) : Option Nat :=
  if s = "minor" then some 0
  else if s = "major" then some 1
  else if s = "critical" then some 2
  else none

/-- One iteration of the counting loop (`server.py:241-242`):
`errors_by_severity[error["severity"]] += 1`, which raises KeyError when
the severity is not one of the three bucket keys. -/
def bumpSeverity (c : SevCounts) (s : String) : Except String SevCounts :=
  if s = "minor" then .ok { c with minor := c.minor + 1 }
  else if s = "major" then .ok { c with major := c.major + 1 }
  else if s = "critical" then .ok { c with critical := c.critical + 1 }
  else .error ("KeyError: " ++ s)

/-- The counting loop of /detect_errors over a list of errors
(`server.py:240-242`). -/
def countLoop (acc : SevCounts) : List ErrorSpan → Except String SevCounts
  | [] => .ok acc
  | e :: rest =>
      match bumpSeverity acc e.severity with
      | .error msg => .error msg
      | .ok acc2 => countLoop acc2 rest

/-- `errors_by_severity` computation of /detect_errors starting from all
buckets at zero (`server.py:240-242`). -/
def countBySeverity (l : List ErrorSpan) : Except String SevCounts :=
  countLoop ⟨0, 0, 0⟩ l

/-- An error record of the /detect_errors response
(`{"suggestion": None, **e}`, `server.py:247`). -/
structure DetectError where
  suggestion : Option String
  text : String
  start : Int
  stop : Int
  severity : String
deriving DecidableEq, Repr

/-- Adds the `suggestion: None` placeholder to a filtered error
(`server.py:247`). -/
def addSuggestion (e : ErrorSpan) : DetectError :=
  { suggestion := none, text := e.text, start := e.start, stop := e.stop,
    severity := e.severity }

/-- Success body of POST /detect_errors (`server.py:244-248`). -/
structure DetectResult where
  total_errors : Nat
  errors_by_severity : SevCounts
  errors : List DetectError
deriving DecidableEq, Repr

/-- The internal EvaluateRequest built by /detect_errors
(`server.py:222-227`). -/
def toEvalReq (req : DetectErrorsRequest) : EvaluateRequest :=
  { source := req.source, translation := req.translation,
    reference := req.reference, use_gpu := req.use_gpu }

/-- The severity filter of /detect_errors (`server.py:231-237`): an
unrecognised severity string (of an error or of `min_severity`) gets
order 0 via the `dict.get(key, 0)` fallback. -/
def filterBySeverity (errors : List ErrorSpan) (min_severity : String) : List ErrorSpan :=
  let minOrd := (severityOrder min_severity).getD 0
  errors.filter (fun e => decide (minOrd ≤ (severityOrder e.severity).getD 0))

/-- POST /detect_errors (`server.py:217-253`): delegates to `evaluate`,
then filters and counts; a KeyError in the counting loop is caught by the
generic handler and surfaced as a 500 response. -/
def detect_errors (env : Env) (req : DetectErrorsRequest) (t : Nat) (st : ServerState) :
    Except HTTPErr DetectResult × ServerState :=
  match evaluate env (toEvalReq req) t st with
  | (.error e, st1) => (.error e, st1)
  | (.ok res, st1) =>
      let filtered := filterBySeverity res.errors req.min_severity
      match countBySeverity filtered with
      | .error e => (.error ⟨500, e⟩, st1)
      | .ok counts =>
          (.ok { total_errors := filtered.length, errors_by_severity := counts,
                 errors := filtered.map addSuggestion }, st1)

/-- One result record of the batch response loop (`server.py:300-325`). -/
structure BatchItem where
  index : Nat
  score : ℚ
  errors : List ErrorSpan
  error_count : Nat
  has_critical_errors : Bool
deriving DecidableEq, Repr

/-- Success body of POST /batch_evaluate (`server.py:333-338`). -/
structure BatchResult where
  average_score : ℚ
  total_pairs : Nat
  results : List BatchItem
  summary : String
deriving DecidableEq, Repr

/-- Detail string of the batch reference rejection, embedding the count of
pairs missing a reference (`server.py:276-279`). -/
def batchRefDetail (model_name : String) (missing : Nat) : String :=
  "Model \"" ++ model_name ++ "\" requires reference translations. " ++
    toString missing ++ " pairs are missing reference."

/-- `missing_ref_count` (`server.py:274`). -/
def missingRefCount (pairs : List TranslationPair) : Nat :=
  (pairs.filter (fun p => !refTruthy p.reference)).length

/-- The `data` list built by /batch_evaluate (`server.py:282-287`). -/
def batchData (pairs : List TranslationPair) : List DataItem :=
  pairs.map (fun p =>
    { src := p.source, mt := p.translation,
      ref := if refTruthy p.reference then p.reference else none })

/-- Stats update of a successful /batch_evaluate (`server.py:294-297`). -/
def recordBatch (s : Stats) (n t : Nat) : Stats :=
  { s with batch_count := s.batch_count + 1,
           total_pairs_evaluated := s.total_pairs_evaluated + n,
           total_inference_time_ms := s.total_inference_time_ms + t }

/-- One record of the batch result list (`server.py:300-325`); `md` is the
per-index metadata entry, `none` when metadata is falsy, the index is out
of range, or no `error_spans` key is present. -/
def batchItem (md : Option (List RawSpan)) (i : Nat) (score : ℚ) : BatchItem :=
  let errors := extractSpans md
  { index := i, score := score, errors := errors, error_count := errors.length,
    has_critical_errors :=
      match md with
      | none => false
      | some spans => spans.any (fun s => s.severity == some "critical") }

/-- The enumerated result list of /batch_evaluate (`server.py:300-325`). -/
def batchResults (output : ModelOutput) : List BatchItem :=
  output.scores.enum.map (fun p => batchItem (output.metadata.getD p.1 none) p.1 p.2)

/-- The short-circuit response for an empty pairs list
(`server.py:261-267`). -/
def emptyBatchResult : BatchResult :=
  { average_score := 0, total_pairs := 0, results := [],
    summary := "No pairs to evaluate." }

/-- POST /batch_evaluate (`server.py:256-343`). `t` is the measured
inference duration in ms. Source order: the empty-pairs short circuit,
then `get_model()`, then the reference validation, then `predict`, then
the stats update and aggregation. -/
def batch_evaluate (env : Env) (req : BatchEvaluateRequest) (t : Nat) (st : ServerState) :
    Except HTTPErr BatchResult × ServerState :=
  if req.pairs.isEmpty then
    (.ok emptyBatchResult, st)
  else
    let st1 := get_model st
    if model_requires_reference env.modelName && decide (0 < missingRefCount req.pairs) then
      (.error ⟨400, batchRefDetail env.modelName (missingRefCount req.pairs)⟩, st1)
    else
      let st2 := { st1 with predictCalls := st1.predictCalls + 1 }
      match env.predict (batchData req.pairs) req.batch_size (if req.use_gpu then 1 else 0) with
      | .error e => (.error ⟨500, e⟩, st2)
      | .ok output =>
          let st3 := { st2 with stats := recordBatch st2.stats req.pairs.length t }
          let results := batchResults output
          let total_score := (results.map BatchItem.score).sum
          let average_score : ℚ :=
            if results.isEmpty then 0 else total_score / (results.length : ℚ)
          let good_count := (results.filter (fun r => decide ((0.7 : ℚ) ≤ r.score))).length
          let critical_count := (results.filter (fun r => r.has_critical_errors)).length
          (.ok { average_score := average_score, total_pairs := req.pairs.length,
                 results := results,
                 summary := "Evaluated " ++ toString req.pairs.length ++
                   " pairs. Average score: " ++ fmt3 average_score ++ ". " ++
                   toString good_count ++ " good quality, " ++ toString critical_count ++
                   " with critical errors." }, st3)

/-- Keys of the `_stats` dict literal (`server.py:29-36`). -/
def statsDictKeys : List String :=
  ["start_time", "model_load_time", "evaluation_count", "batch_count",
   "total_pairs_evaluated", "total_inference_time_ms"]

/-- Keys of the GET /stats response dict (`server.py:136-145`). -/
def statsResponseKeys : List String :=
  ["uptime_seconds", "model_loaded", "model_load_time_ms", "evaluation_count",
   "batch_count", "total_pairs_evaluated", "total_inference_time_ms",
   "avg_inference_time_ms"]

/-- The `_stats` keys asserted by the repository's own test suite
(`tests/test_server.py:18-32`, `test_stats_structure`). -/
def testExpectedStatsKeys : List String :=
  ["start_time", "model_load_time", "evaluate_api_count",
   "detect_errors_api_count", "batch_api_count", "total_pairs_evaluated",
   "total_inference_time_ms"]

/-- Numeric part of the GET /stats response (`server.py:122-145`); the
wall-clock fields `uptime_seconds` and `model_load_time_ms` are not
modelled, and `round` abstracts Python float rounding. -/
structure StatsResponse where
  model_loaded : Bool
  evaluation_count : Nat
  batch_count : Nat
  total_pairs_evaluated : Nat
  total_inference_time_ms : Nat
  avg_inference_time_ms : Option Int
deriving DecidableEq, Repr

/-- GET /stats (`server.py:122-145`). -/
def statsEndpoint (st : ServerState) : StatsResponse :=
  let total_requests := st.stats.evaluation_count + st.stats.batch_count
  { model_loaded := st.modelLoaded,
    evaluation_count := st.stats.evaluation_count,
    batch_count := st.stats.batch_count,
    total_pairs_evaluated := st.stats.total_pairs_evaluated,
    total_inference_time_ms := st.stats.total_inference_time_ms,
    avg_inference_time_ms :=
      if 0 < total_requests then
        some (round ((st.stats.total_inference_time_ms : ℚ) / (total_requests : ℚ)))
      else none }

/-- Per-bucket exact counts of a list of error spans; the reference
mapping against which `errors_by_severity` is checked. -/
def bucketCounts (l : List ErrorSpan) : SevCounts :=
  ⟨(l.filter (fun e => e.severity == "minor")).length,
   (l.filter (fun e => e.severity == "major")).length,
   (l.filter (fun e => e.severity == "critical")).length⟩

/-- Whether an endpoint outcome is a success. -/
def exOk {ε α : Type} : Except ε α → Bool
  | .ok _ => true
  | .error _ => false

/-- Fresh server state: model not loaded, all counters zero. -/
def stZero : ServerState := ⟨false, 0, ⟨0, 0, 0, 0⟩⟩

/-- A well-behaved scoring function returning the same score for every
item and no metadata. -/
def predScore (q : ℚ) : List DataItem → Nat → Nat → Except String ModelOutput :=
  fun data _ _ => .ok ⟨data.map (fun _ => q), []⟩

/-- Reference-optional model with a well-behaved scorer. -/
def envPlain : Env := ⟨"Unbabel/XCOMET-XL", predScore 0.8⟩

/-- Reference-mandatory model (name in the reference-required list). -/
def envRefReq : Env := ⟨"wmt22-comet-da", predScore 0.8⟩

/-- Scorer whose output carries an empty scores list. -/
def envEmptyScores : Env := ⟨"Unbabel/XCOMET-XL", fun _ _ _ => .ok ⟨[], []⟩⟩

/-- Scorer whose predict call raises. -/
def envFail : Env := ⟨"Unbabel/XCOMET-XL", fun _ _ _ => .error "boom"⟩

/-- Concrete raw spans used by the test environments. -/
def spanMinor : RawSpan := ⟨some "a", some 0, some 1, some "minor"⟩

def spanMajor : RawSpan := ⟨some "b", some 2, some 3, some "major"⟩

def spanUnknown : RawSpan := ⟨some "c", some 4, some 5, some "unknown"⟩

/-- Scorer returning one minor and one major error span per item. -/
def envSpans : Env :=
  ⟨"Unbabel/XCOMET-XL",
   fun data _ _ =>
     .ok ⟨data.map (fun _ => 0.8), data.map (fun _ => some [spanMinor, spanMajor])⟩⟩

/-- Scorer returning one span with an unrecognised severity per item. -/
def envUnknownSpan : Env :=
  ⟨"Unbabel/XCOMET-XL",
   fun data _ _ =>
     .ok ⟨data.map (fun _ => 0.8), data.map (fun _ => some [spanUnknown])⟩⟩

/-- Concrete requests. -/
def reqEval : EvaluateRequest := ⟨"s", "t", none, false⟩

def reqDetectMinor : DetectErrorsRequest := ⟨"s", "t", none, "minor", false⟩

def reqDetectMajor : DetectErrorsRequest := ⟨"s", "t", none, "major", false⟩

def pairNoRef : TranslationPair := ⟨"s", "t", none⟩

def reqBatch3 : BatchEvaluateRequest := ⟨[pairNoRef, pairNoRef, pairNoRef], 8, false⟩

/-! ## Theorems -/

/-- Label when the score reaches the Excellent threshold. -/
theorem quality_of_ge_09 (s : ℚ) (h : (0.9 : ℚ) ≤ s) : quality s = "Excellent" := by
  unfold quality
  rw [if_pos h]

/-- Label on the Good interval. -/
theorem quality_of_ge_07 (s : ℚ) (h : (0.7 : ℚ) ≤ s) (h' : s < (0.9 : ℚ)) :
    quality s = "Good" := by
  unfold quality
  rw [if_neg (not_le.mpr h'), if_pos h]

/-- Label on the Fair interval. -/
theorem quality_of_ge_05 (s : ℚ) (h : (0.5 : ℚ) ≤ s) (h' : s < (0.7 : ℚ)) :
    quality s = "Fair" := by
  unfold quality
  rw [if_neg (not_le.mpr (lt_of_lt_of_le h' (by norm_num))),
      if_neg (not_le.mpr h'), if_pos h]

/-- Label below the Fair threshold. -/
theorem quality_of_lt_05 (s : ℚ) (h : s < (0.5 : ℚ)) : quality s = "Poor" := by
  unfold quality
  rw [if_neg (not_le.mpr (lt_of_lt_of_le h (by norm_num))),
      if_neg (not_le.mpr (lt_of_lt_of_le h (by norm_num))),
      if_neg (not_le.mpr h)]

/-- C4: the derived quality label follows the four fixed thresholds with
exact boundaries: `score ≥ 0.9` yields "Excellent", `0.7 ≤ score < 0.9`
yields "Good", `0.5 ≤ score < 0.7` yields "Fair", `score < 0.5` yields
"Poor"; in particular 0.9 → Excellent, 0.8999 → Good, 0.7 → Good,
0.6999 → Fair, 0.5 → Fair, 0.4999 → Poor. -/
theorem quality_label_thresholds (s : ℚ) :
    (9/10 ≤ s → quality s = "Excellent") ∧
    (7/10 ≤ s → s < 9/10 → quality s = "Good") ∧
    (1/2 ≤ s → s < 7/10 → quality s = "Fair") ∧
    (s < 1/2 → quality s = "Poor") ∧
    quality (9/10) = "Excellent" ∧ quality (8999/10000) = "Good" ∧
    quality (7/10) = "Good" ∧ quality (6999/10000) = "Fair" ∧
    quality (1/2) = "Fair" ∧ quality (4999/10000) = "Poor" := by
  refine ⟨fun h => quality_of_ge_09 s (by rw [show (0.9 : ℚ) = 9/10 by norm_num]; exact h),
    fun h h' => quality_of_ge_07 s (by rw [show (0.7 : ℚ) = 7/10 by norm_num]; exact h)
      (by rw [show (0.9 : ℚ) = 9/10 by norm_num]; exact h'),
    fun h h' => quality_of_ge_05 s (by rw [show (0.5 : ℚ) = 1/2 by norm_num]; exact h)
      (by rw [show (0.7 : ℚ) = 7/10 by norm_num]; exact h'),
    fun h => quality_of_lt_05 s (by rw [show (0.5 : ℚ) = 1/2 by norm_num]; exact h),
    quality_of_ge_09 _ (by norm_num), quality_of_ge_07 _ (by norm_num) (by norm_num),
    quality_of_ge_07 _ (by norm_num) (by norm_num),
    quality_of_ge_05 _ (by norm_num) (by norm_num),
    quality_of_ge_05 _ (by norm_num) (by norm_num),
    quality_of_lt_05 _ (by norm_num)⟩

/-- C5: a /batch_evaluate request with an empty pairs list returns
`average_score = 0`, `total_pairs = 0`, an empty results list and the
summary "No pairs to evaluate.", leaving the whole server state (model
load flag, predict-invocation count, all stats counters) untouched — for
every environment, so the scoring function is never consulted. -/
theorem batch_empty_pairs_short_circuit (env : Env) (bs : Nat) (gpu : Bool)
    (t : Nat) (st : ServerState) :
    batch_evaluate env ⟨[], bs, gpu⟩ t st = (.ok emptyBatchResult, st) ∧
    emptyBatchResult.average_score = 0 ∧
    emptyBatchResult.total_pairs = 0 ∧
    emptyBatchResult.results = [] ∧
    emptyBatchResult.summary = "No pairs to evaluate." :=
  ⟨rfl, rfl, rfl, rfl, rfl⟩

/-- The server state after one /evaluate call (10 ms), one /detect_errors
call (20 ms) and one /batch_evaluate call with 3 pairs (30 ms), starting
from a fresh state, against the plain reference-optional environment. -/
def st3After : ServerState :=
  (batch_evaluate envPlain reqBatch3 30
    (detect_errors envPlain reqDetectMinor 20
      (evaluate envPlain reqEval 10 stZero).2).2).2

/-- C1 counterexample: with two error spans (one minor, one major) in the
evaluation result and `min_severity = "major"`, the response's
`errors_by_severity` is `{minor := 0, major := 1, critical := 0}` — the
counts of the *filtered* list — while the per-bucket counts of the
original unfiltered error list are `{minor := 1, major := 1,
critical := 0}`; the claim that the mapping counts all original errors is
false. -/
theorem detect_counts_filtered_counterexample :
    (evaluate envSpans (toEvalReq reqDetectMajor) 4 stZero).1.toOption.map EvalResult.errors
      = some [⟨"a", 0, 1, "minor"⟩, ⟨"b", 2, 3, "major"⟩] ∧
    bucketCounts [⟨"a", 0, 1, "minor"⟩, ⟨"b", 2, 3, "major"⟩] = ⟨1, 1, 0⟩ ∧
    (detect_errors envSpans reqDetectMajor 4 stZero).1.toOption.map
      DetectResult.errors_by_severity = some ⟨0, 1, 0⟩ ∧
    (⟨0, 1, 0⟩ : SevCounts) ≠ ⟨1, 1, 0⟩ :=
  ⟨rfl, rfl, rfl, by decide⟩

/-- C2: the /stats response (and the `_stats` dict behind it) has no
distinct per-endpoint counter for /detect_errors: the keys
`evaluate_api_count`, `detect_errors_api_count` and `batch_api_count`
asserted by the repository's own test suite are absent from both dicts,
and a successful /detect_errors call is counted under the shared
`evaluation_count` key instead. -/
theorem stats_counters_shared_bug :
    ("evaluate_api_count" ∈ testExpectedStatsKeys ∧
     "detect_errors_api_count" ∈ testExpectedStatsKeys ∧
     "batch_api_count" ∈ testExpectedStatsKeys) ∧
    ("evaluate_api_count" ∉ statsDictKeys ∧
     "detect_errors_api_count" ∉ statsDictKeys ∧
     "batch_api_count" ∉ statsDictKeys) ∧
    ("evaluate_api_count" ∉ statsResponseKeys ∧
     "detect_errors_api_count" ∉ statsResponseKeys ∧
     "batch_api_count" ∉ statsResponseKeys) ∧
    exOk (detect_errors envPlain reqDetectMinor 5 stZero).1 = true ∧
    (detect_errors envPlain reqDetectMinor 5 stZero).2.stats.evaluation_count = 1 ∧
    (statsEndpoint (detect_errors envPlain reqDetectMinor 5 stZero).2).evaluation_count = 1 :=
  ⟨⟨by decide, by decide, by decide⟩,
   ⟨by decide, by decide, by decide⟩,
   ⟨by decide, by decide, by decide⟩, rfl, rfl, rfl⟩

/-- C3 counterexample: from zero counters, after one successful /evaluate
call, one successful /detect_errors call and one successful
/batch_evaluate call with 3 pairs, `total_pairs_evaluated` is 5 (the
/detect_errors call contributes 1 through its internal evaluate), not 4
as claimed. -/
theorem total_pairs_after_three_calls_counterexample :
    exOk (evaluate envPlain reqEval 10 stZero).1 = true ∧
    exOk (detect_errors envPlain reqDetectMinor 20
      (evaluate envPlain reqEval 10 stZero).2).1 = true ∧
    exOk (batch_evaluate envPlain reqBatch3 30
      (detect_errors envPlain reqDetectMinor 20
        (evaluate envPlain reqEval 10 stZero).2).2).1 = true ∧
    reqBatch3.pairs.length = 3 ∧
    st3After.stats.total_pairs_evaluated = 5 ∧
    st3After.stats.total_pairs_evaluated ≠ 4 := by
  have h5 : st3After.stats.total_pairs_evaluated = 5 := rfl
  exact ⟨rfl, rfl, rfl, rfl, h5, by rw [h5]; decide⟩

/-- C7 counterexample: when the scoring call succeeds but returns an empty
scores list, /evaluate answers with a 500 error (the read of
`output.scores[0]` fails) even though the stats counters have already
been updated — so a request that ends in an error response can update
the counters. -/
theorem failed_request_updates_stats_counterexample :
    (evaluate envEmptyScores reqEval 7 stZero).1 =
      .error ⟨500, "list index out of range"⟩ ∧
    (evaluate envEmptyScores reqEval 7 stZero).2.stats = ⟨1, 0, 1, 7⟩ ∧
    (⟨1, 0, 1, 7⟩ : Stats) ≠ stZero.stats :=
  ⟨rfl, rfl, by decide⟩

/-- C8 counterexample: for a reference-mandatory model, a request without
a reference — certain to be rejected — still triggers model
construction: starting from an unloaded model, both /evaluate and
/batch_evaluate answer 400 with the model loaded afterwards, because
`get_model()` runs before the reference validation. -/
theorem validation_after_model_load_counterexample :
    stZero.modelLoaded = false ∧
    (evaluate envRefReq reqEval 1 stZero).1 =
      .error ⟨400, evalRefDetail "wmt22-comet-da"⟩ ∧
    (evaluate envRefReq reqEval 1 stZero).2.modelLoaded = true ∧
    (batch_evaluate envRefReq reqBatch3 1 stZero).1 =
      .error ⟨400, batchRefDetail "wmt22-comet-da" 3⟩ ∧
    (batch_evaluate envRefReq reqBatch3 1 stZero).2.modelLoaded = true :=
  ⟨rfl, rfl, rfl, rfl, rfl⟩

/-- C9: the severity filter itself treats an unrecognised severity string
as order 0 via the `dict.get` fallback, but the request does not complete:
as soon as such an error span passes the filter, the counting loop
`errors_by_severity[error["severity"]] += 1` raises KeyError and the
request fails with a 500 response; with `min_severity = "major"` the
same span is filtered out and the request succeeds. -/
theorem unknown_severity_keyerror_bug :
    (severityOrder "unknown").getD 0 = 0 ∧
    filterBySeverity [⟨"c", 4, 5, "unknown"⟩] "minor" = [⟨"c", 4, 5, "unknown"⟩] ∧
    (detect_errors envUnknownSpan reqDetectMinor 2 stZero).1 =
      .error ⟨500, "KeyError: unknown"⟩ ∧
    (detect_errors envUnknownSpan reqDetectMajor 2 stZero).1.toOption.map
      DetectResult.total_errors = some 0 :=
  ⟨rfl, rfl, rfl, rfl⟩

/-- A successful run of the counting loop adds to the accumulator exactly
the per-bucket counts of the traversed list. -/
theorem countLoop_ok (l : List ErrorSpan) : ∀ acc c : SevCounts,
    countLoop acc l = .ok c →
    c = ⟨acc.minor + (bucketCounts l).minor, acc.major + (bucketCounts l).major,
         acc.critical + (bucketCounts l).critical⟩ := by
  induction l with
  | nil =>
      intro acc c h
      simp only [countLoop, Except.ok.injEq] at h
      simp [← h, bucketCounts]
  | cons e rest ih =>
      intro acc c h
      simp only [countLoop, bumpSeverity] at h
      by_cases h1 : e.severity = "minor"
      · rw [if_pos h1] at h
        have hc := ih _ _ h
        subst hc
        simp [bucketCounts, List.filter_cons, h1]
        omega
      · rw [if_neg h1] at h
        by_cases h2 : e.severity = "major"
        · rw [if_pos h2] at h
          have hc := ih _ _ h
          subst hc
          simp [bucketCounts, List.filter_cons, h2, h1]
          omega
        · rw [if_neg h2] at h
          by_cases h3 : e.severity = "critical"
          · rw [if_pos h3] at h
            have hc := ih _ _ h
            subst hc
            simp [bucketCounts, List.filter_cons, h3, h1, h2]
            omega
          · rw [if_neg h3] at h
            exact absurd h (by simp)

/-- A successful `countBySeverity` returns exactly the per-bucket counts
of its argument list. -/
theorem countBySeverity_ok (l : List ErrorSpan) (c : SevCounts)
    (h : countBySeverity l = .ok c) : c = bucketCounts l := by
  have := countLoop_ok l ⟨0, 0, 0⟩ c h
  simpa using this

/-- Filtering by severity commutes with adding the suggestion
placeholder. -/
theorem length_filter_sev_map (l : List ErrorSpan) (s : String) :
    ((l.map addSuggestion).filter (fun d => d.severity == s)).length =
      (l.filter (fun e => e.severity == s)).length := by
  rw [List.filter_map, List.length_map]
  rfl

/-- C1 amended: for every successful /detect_errors response, the
`errors_by_severity` mapping counts the errors of the *filtered* list
returned in the response (one count per severity bucket), and
`total_errors` is the filtered list's length — not the counts of the
original unfiltered evaluation result. -/
theorem detect_counts_are_of_filtered_errors (env : Env) (req : DetectErrorsRequest)
    (t : Nat) (st st2 : ServerState) (r : DetectResult)
    (h : detect_errors env req t st = (.ok r, st2)) :
    r.errors_by_severity =
      ⟨(r.errors.filter (fun d => d.severity == "minor")).length,
       (r.errors.filter (fun d => d.severity == "major")).length,
       (r.errors.filter (fun d => d.severity == "critical")).length⟩ ∧
    r.total_errors = r.errors.length := by
  unfold detect_errors at h
  cases hev : evaluate env (toEvalReq req) t st with
  | mk fst snd =>
      rw [hev] at h
      cases fst with
      | error e => simp at h
      | ok res =>
          cases hc : countBySeverity (filterBySeverity res.errors req.min_severity) with
          | error e2 =>
              simp only [hc] at h
              exact absurd h (by simp)
          | ok counts =>
              simp only [hc, Prod.mk.injEq, Except.ok.injEq] at h
              obtain ⟨hr, -⟩ := h
              subst hr
              have hbc := countBySeverity_ok _ _ hc
              refine ⟨?_, by simp⟩
              simp only [hbc, bucketCounts]
              simp only [SevCounts.mk.injEq]
              refine ⟨?_, ?_, ?_⟩ <;> exact (length_filter_sev_map _ _).symm

/-- A successful /evaluate call leaves the state with the model loaded and
the stats advanced by `recordEval`. -/
theorem evaluate_ok_stats (env : Env) (req : EvaluateRequest) (t : Nat)
    (st : ServerState) (res : EvalResult) (st' : ServerState)
    (h : evaluate env req t st = (.ok res, st')) :
    st'.stats = recordEval st.stats t ∧ st'.modelLoaded = true := by
  unfold evaluate at h
  split at h
  · exact absurd h (by simp)
  · split at h
    · exact absurd h (by simp)
    · split at h
      · exact absurd h (by simp)
      · obtain ⟨-, h2⟩ := Prod.mk.injEq .. ▸ h
        subst h2
        exact ⟨rfl, rfl⟩

/-- A successful /detect_errors call advances the stats exactly like the
internal /evaluate call it delegates to. -/
theorem detect_ok_stats (env : Env) (req : DetectErrorsRequest) (t : Nat)
    (st : ServerState) (r : DetectResult) (st' : ServerState)
    (h : detect_errors env req t st = (.ok r, st')) :
    st'.stats = recordEval st.stats t := by
  unfold detect_errors at h
  cases hev : evaluate env (toEvalReq req) t st with
  | mk fst snd =>
      rw [hev] at h
      cases fst with
      | error e => exact absurd h (by simp)
      | ok res =>
          cases hc : countBySeverity (filterBySeverity res.errors req.min_severity) with
          | error e2 =>
              simp only [hc] at h
              exact absurd h (by simp)
          | ok counts =>
              simp only [hc, Prod.mk.injEq, Except.ok.injEq] at h
              obtain ⟨-, h2⟩ := h
              subst h2
              exact (evaluate_ok_stats _ _ _ _ _ _ hev).1

/-- A successful /batch_evaluate call on a non-empty pairs list advances
the stats by `recordBatch`. -/
theorem batch_ok_stats (env : Env) (req : BatchEvaluateRequest) (t : Nat)
    (st : ServerState) (r : BatchResult) (st' : ServerState)
    (h : batch_evaluate env req t st = (.ok r, st')) (hne : req.pairs ≠ []) :
    st'.stats = recordBatch st.stats req.pairs.length t := by
  unfold batch_evaluate at h
  split at h
  · rename_i hEmpty
    simp at hEmpty
    exact absurd hEmpty hne
  · split at h
    · exact absurd h (by simp)
    · split at h
      · exact absurd h (by simp)
      · obtain ⟨-, h2⟩ := Prod.mk.injEq .. ▸ h
        subst h2
        rfl

/-- A single-pair request without a truthy reference against a
reference-mandatory model is rejected with 400; the model has been loaded
(get_model runs first) but nothing else changes. -/
theorem evaluate_validation_rejects (env : Env) (req : EvaluateRequest) (t : Nat)
    (st : ServerState) (hval : refTruthy req.reference = false)
    (hreq : model_requires_reference env.modelName = true) :
    evaluate env req t st =
      (.error ⟨400, evalRefDetail env.modelName⟩, { st with modelLoaded := true }) := by
  unfold evaluate
  rw [hval, hreq]
  rfl

/-- When the scoring call raises, /evaluate leaves every stats counter
unchanged (this also covers the validation-rejection branch). -/
theorem evaluate_predict_error_no_stats (env : Env) (req : EvaluateRequest) (t : Nat)
    (st : ServerState) (e : String)
    (hp : env.predict (evalData req) 1 (if req.use_gpu then 1 else 0) = .error e) :
    ((evaluate env req t st).2).stats = st.stats := by
  unfold evaluate
  split
  · rfl
  · simp only [hp]
    rfl

/-- Every /batch_evaluate error response leaves the stats counters
unchanged: after the stats update nothing in the batch path can fail. -/
theorem batch_error_no_stats (env : Env) (req : BatchEvaluateRequest) (t : Nat)
    (st : ServerState) (e : HTTPErr)
    (h : (batch_evaluate env req t st).1 = .error e) :
    ((batch_evaluate env req t st).2).stats = st.stats := by
  revert h
  unfold batch_evaluate
  split
  · intro h
    exact absurd h (by simp)
  · split
    · intro h
      rfl
    · cases hp : env.predict (batchData req.pairs) req.batch_size
        (if req.use_gpu then 1 else 0) with
      | error e2 =>
          simp only [hp]
          intro h
          rfl
      | ok output =>
          simp only [hp]
          intro h
          exact absurd h (by simp)

/-- Inversion of a successful outcome. -/
theorem exOk_exists {ε α : Type} (x : Except ε α) (h : exOk x = true) :
    ∃ a, x = .ok a := by
  cases x with
  | ok a => exact ⟨a, rfl⟩
  | error e => simp [exOk] at h

/-- C3 amended: starting from zero counters, after one successful
/evaluate call, one successful /detect_errors call and one successful
/batch_evaluate call with 3 pairs, `evaluation_count = 2` (the
/detect_errors call is counted through its internal evaluate),
`batch_count = 1`, `total_pairs_evaluated = 5` (1 + 1 + 3, not 4), and
`total_inference_time_ms` is increased by the durations of all three
calls. -/
theorem stats_after_three_successful_calls (env : Env) (req1 : EvaluateRequest)
    (req2 : DetectErrorsRequest) (req3 : BatchEvaluateRequest)
    (t1 t2 t3 : Nat) (st0 : ServerState)
    (h0 : st0.stats = ⟨0, 0, 0, 0⟩)
    (h1 : exOk (evaluate env req1 t1 st0).1 = true)
    (h2 : exOk (detect_errors env req2 t2 (evaluate env req1 t1 st0).2).1 = true)
    (h3 : exOk (batch_evaluate env req3 t3
      (detect_errors env req2 t2 (evaluate env req1 t1 st0).2).2).1 = true)
    (hp : req3.pairs.length = 3) :
    (batch_evaluate env req3 t3
      (detect_errors env req2 t2 (evaluate env req1 t1 st0).2).2).2.stats
      = ⟨2, 1, 5, t1 + t2 + t3⟩ := by
  obtain ⟨r1, hr1⟩ := exOk_exists _ h1
  obtain ⟨r2, hr2⟩ := exOk_exists _ h2
  obtain ⟨r3, hr3⟩ := exOk_exists _ h3
  have e1 := (evaluate_ok_stats env req1 t1 st0 r1
    (evaluate env req1 t1 st0).2 (by rw [← hr1])).1
  have e2 := detect_ok_stats env req2 t2 (evaluate env req1 t1 st0).2 r2
    (detect_errors env req2 t2 (evaluate env req1 t1 st0).2).2 (by rw [← hr2])
  have e3 := batch_ok_stats env req3 t3
    (detect_errors env req2 t2 (evaluate env req1 t1 st0).2).2 r3
    (batch_evaluate env req3 t3
      (detect_errors env req2 t2 (evaluate env req1 t1 st0).2).2).2 (by rw [← hr3])
    (by intro hnil; rw [hnil] at hp; simp at hp)
  rw [e3, hp, e2, e1, h0]
  simp [recordEval, recordBatch, Stats.mk.injEq]

/-- Witness for C3 amended: the three-call scenario against the plain
environment with durations 10, 20 and 30 ms ends with counters
(2, 1, 5, 60). -/
theorem stats_after_three_successful_calls_witness :
    st3After.stats = ⟨2, 1, 5, 60⟩ :=
  stats_after_three_successful_calls envPlain reqEval reqDetectMinor reqBatch3
    10 20 30 stZero rfl rfl rfl rfl rfl

/-- The concrete /detect_errors response used to witness C1 amended. -/
def detectResW : DetectResult := ⟨1, ⟨0, 1, 0⟩, [⟨none, "b", 2, 3, "major"⟩]⟩

/-- Witness for C1 amended: on the two-span environment with
`min_severity = "major"`, the response's counts are exactly the
per-bucket counts of its own filtered error list. -/
theorem detect_counts_are_of_filtered_errors_witness :
    detectResW.errors_by_severity =
      ⟨(detectResW.errors.filter (fun d => d.severity == "minor")).length,
       (detectResW.errors.filter (fun d => d.severity == "major")).length,
       (detectResW.errors.filter (fun d => d.severity == "critical")).length⟩ ∧
    detectResW.total_errors = detectResW.errors.length :=
  detect_counts_are_of_filtered_errors envSpans reqDetectMajor 4 stZero
    ⟨true, 1, ⟨1, 0, 1, 4⟩⟩ detectResW rfl

/-- A batch request with at least one pair lacking a truthy reference
against a reference-mandatory model is rejected with 400, the detail
embedding the count of offending pairs; the model has been loaded but
nothing else changes. -/
theorem batch_validation_rejects (env : Env) (req : BatchEvaluateRequest) (t : Nat)
    (st : ServerState) (hreq : model_requires_reference env.modelName = true)
    (hmiss : 0 < missingRefCount req.pairs) :
    batch_evaluate env req t st =
      (.error ⟨400, batchRefDetail env.modelName (missingRefCount req.pairs)⟩,
       { st with modelLoaded := true }) := by
  have hne : req.pairs.isEmpty = false := by
    cases hps : req.pairs with
    | nil => rw [hps] at hmiss; simp [missingRefCount] at hmiss
    | cons a l => rfl
  unfold batch_evaluate
  rw [hne, hreq, decide_eq_true hmiss]
  rfl

/-- When the model is reference-optional, every /evaluate error is a 500:
the 400 reference rejection cannot fire. -/
theorem evaluate_error_500_when_not_required (env : Env) (req : EvaluateRequest)
    (t : Nat) (st : ServerState) (e : HTTPErr)
    (hreq : model_requires_reference env.modelName = false)
    (h : (evaluate env req t st).1 = .error e) : e.status = 500 := by
  revert h
  unfold evaluate
  rw [hreq]
  simp only [Bool.and_false]
  cases hp : env.predict (evalData req) 1 (if req.use_gpu then 1 else 0) with
  | error e2 =>
      simp only [hp]
      intro h
      cases h
      rfl
  | ok output =>
      simp only [hp]
      cases hs : output.scores with
      | nil =>
          simp only [hs]
          intro h
          cases h
          rfl
      | cons q qs =>
          simp only [hs]
          intro h
          cases h

/-- When the model is reference-optional, every /batch_evaluate error is
a 500: the 400 reference rejection cannot fire. -/
theorem batch_error_500_when_not_required (env : Env) (req : BatchEvaluateRequest)
    (t : Nat) (st : ServerState) (e : HTTPErr)
    (hreq : model_requires_reference env.modelName = false)
    (h : (batch_evaluate env req t st).1 = .error e) : e.status = 500 := by
  revert h
  unfold batch_evaluate
  rw [hreq]
  simp only [Bool.false_and]
  split
  · intro h
    cases h
  · cases hp : env.predict (batchData req.pairs) req.batch_size
      (if req.use_gpu then 1 else 0) with
    | error e2 =>
        simp only [hp]
        intro h
        cases h
        rfl
    | ok output =>
        simp only [hp]
        intro h
        cases h

/-- C6: for a model whose name contains (case-insensitively) one of the
reference-mandatory identifiers, a single-pair request without a
reference is rejected with 400, and a batch request with at least one
pair lacking a reference is rejected with 400 with a message reporting
the number of pairs missing a reference; for any other model name the
endpoints never produce a client (400) error — any failure is a 500. -/
theorem reference_requirement_validation (env : Env) (t : Nat) (st : ServerState) :
    (∀ req : EvaluateRequest, model_requires_reference env.modelName = true →
      refTruthy req.reference = false →
      (evaluate env req t st).1 = .error ⟨400, evalRefDetail env.modelName⟩) ∧
    (∀ req : BatchEvaluateRequest, model_requires_reference env.modelName = true →
      0 < missingRefCount req.pairs →
      (batch_evaluate env req t st).1 =
        .error ⟨400, batchRefDetail env.modelName (missingRefCount req.pairs)⟩) ∧
    (∀ (req : EvaluateRequest) (e : HTTPErr),
      model_requires_reference env.modelName = false →
      (evaluate env req t st).1 = .error e → e.status = 500) ∧
    (∀ (req : BatchEvaluateRequest) (e : HTTPErr),
      model_requires_reference env.modelName = false →
      (batch_evaluate env req t st).1 = .error e → e.status = 500) := by
  refine ⟨fun req hreq hval => ?_, fun req hreq hmiss => ?_,
    fun req e hreq h => evaluate_error_500_when_not_required env req t st e hreq h,
    fun req e hreq h => batch_error_500_when_not_required env req t st e hreq h⟩
  · rw [evaluate_validation_rejects env req t st hval hreq]
  · rw [batch_validation_rejects env req t st hreq hmiss]

/-- Witness for C6: the reference-mandatory model "wmt22-comet-da" rejects
a reference-less single request and a 3-pair reference-less batch with
the counting message, and against a reference-optional model a predict
failure surfaces as status 500. -/
theorem reference_requirement_validation_witness :
    (evaluate envRefReq reqEval 1 stZero).1 =
      .error ⟨400, evalRefDetail "wmt22-comet-da"⟩ ∧
    (batch_evaluate envRefReq reqBatch3 1 stZero).1 =
      .error ⟨400, batchRefDetail "wmt22-comet-da" 3⟩ ∧
    (⟨500, "boom"⟩ : HTTPErr).status = 500 :=
  ⟨(reference_requirement_validation envRefReq 1 stZero).1 reqEval (by decide) rfl,
   (reference_requirement_validation envRefReq 1 stZero).2.1 reqBatch3 (by decide) (by decide),
   (reference_requirement_validation envFail 1 stZero).2.2.1 reqEval ⟨500, "boom"⟩
     (by decide) rfl⟩

/-- C7 amended: stats counters are updated only once the scoring call has
succeeded — a validation-rejected request and a request whose predict
call raises leave all counters unchanged, and every /batch_evaluate error
leaves them unchanged; however (see the counterexample) an /evaluate
request failing after a successful predict, on the unreadable-score path,
has already updated the counters. -/
theorem stats_update_requires_predict_success (env : Env) (t : Nat) (st : ServerState) :
    (∀ req : EvaluateRequest, refTruthy req.reference = false →
      model_requires_reference env.modelName = true →
      (evaluate env req t st).1 = .error ⟨400, evalRefDetail env.modelName⟩ ∧
      ((evaluate env req t st).2).stats = st.stats) ∧
    (∀ (req : EvaluateRequest) (e : String),
      env.predict (evalData req) 1 (if req.use_gpu then 1 else 0) = .error e →
      ((evaluate env req t st).2).stats = st.stats) ∧
    (∀ (req : BatchEvaluateRequest) (e : HTTPErr),
      (batch_evaluate env req t st).1 = .error e →
      ((batch_evaluate env req t st).2).stats = st.stats) := by
  refine ⟨fun req hval hreq => ?_,
    fun req e hp => evaluate_predict_error_no_stats env req t st e hp,
    fun req e h => batch_error_no_stats env req t st e h⟩
  rw [evaluate_validation_rejects env req t st hval hreq]
  exact ⟨rfl, rfl⟩

/-- Witness for C7 amended: a validation rejection, a raising predict
call, and a failing batch call each leave the zero counters at zero. -/
theorem stats_update_requires_predict_success_witness :
    ((evaluate envRefReq reqEval 9 stZero).1 =
        .error ⟨400, evalRefDetail "wmt22-comet-da"⟩ ∧
      ((evaluate envRefReq reqEval 9 stZero).2).stats = stZero.stats) ∧
    ((evaluate envFail reqEval 9 stZero).2).stats = stZero.stats ∧
    ((batch_evaluate envFail reqBatch3 9 stZero).2).stats = stZero.stats :=
  ⟨(stats_update_requires_predict_success envRefReq 9 stZero).1 reqEval rfl (by decide),
   (stats_update_requires_predict_success envFail 9 stZero).2.1 reqEval "boom" rfl,
   (stats_update_requires_predict_success envFail 9 stZero).2.2 reqBatch3 ⟨500, "boom"⟩ rfl⟩

/-- C8 amended: the reference validation runs after the lazy loader but
before the scoring call — a request certain to be rejected still triggers
model construction (the final state has the model loaded) but never
triggers scoring (the predict-invocation count, like the rest of the
state, is unchanged). -/
theorem rejected_request_loads_model_but_never_predicts (env : Env) (t : Nat)
    (st : ServerState) :
    (∀ req : EvaluateRequest, model_requires_reference env.modelName = true →
      refTruthy req.reference = false →
      evaluate env req t st =
        (.error ⟨400, evalRefDetail env.modelName⟩, { st with modelLoaded := true })) ∧
    (∀ req : BatchEvaluateRequest, model_requires_reference env.modelName = true →
      0 < missingRefCount req.pairs →
      batch_evaluate env req t st =
        (.error ⟨400, batchRefDetail env.modelName (missingRefCount req.pairs)⟩,
         { st with modelLoaded := true })) :=
  ⟨fun req hreq hval => evaluate_validation_rejects env req t st hval hreq,
   fun req hreq hmiss => batch_validation_rejects env req t st hreq hmiss⟩

/-- Witness for C8 amended: from a fresh state, rejected /evaluate and
/batch_evaluate requests end with the model loaded, zero predict
invocations and zero counters. -/
theorem rejected_request_loads_model_but_never_predicts_witness :
    evaluate envRefReq reqEval 2 stZero =
      (.error ⟨400, evalRefDetail "wmt22-comet-da"⟩, ⟨true, 0, ⟨0, 0, 0, 0⟩⟩) ∧
    batch_evaluate envRefReq reqBatch3 2 stZero =
      (.error ⟨400, batchRefDetail "wmt22-comet-da" 3⟩, ⟨true, 0, ⟨0, 0, 0, 0⟩⟩) :=
  ⟨(rejected_request_loads_model_but_never_predicts envRefReq 2 stZero).1
      reqEval (by decide) rfl,
   (rejected_request_loads_model_but_never_predicts envRefReq 2 stZero).2
      reqBatch3 (by decide) (by decide)⟩

/-- C10: an empty-string reference is treated exactly like an absent one:
the endpoints behave identically on `some ""` and `none`, the `ref` key
is omitted from the data passed to predict in both cases, a pair with an
empty reference counts as missing one, and against a reference-mandatory
model a single-pair request with an empty-string reference is rejected
with 400. -/
theorem empty_reference_treated_as_absent :
    (∀ (env : Env) (t : Nat) (st : ServerState) (src mt : String) (gpu : Bool),
      evaluate env ⟨src, mt, some "", gpu⟩ t st = evaluate env ⟨src, mt, none, gpu⟩ t st) ∧
    (∀ (env : Env) (t : Nat) (st : ServerState) (bs : Nat) (gpu : Bool)
        (src mt : String) (ps : List TranslationPair),
      batch_evaluate env ⟨⟨src, mt, some ""⟩ :: ps, bs, gpu⟩ t st =
        batch_evaluate env ⟨⟨src, mt, none⟩ :: ps, bs, gpu⟩ t st) ∧
    (∀ (src mt : String) (gpu : Bool),
      evalData ⟨src, mt, some "", gpu⟩ = [⟨src, mt, none⟩] ∧
      evalData ⟨src, mt, none, gpu⟩ = [⟨src, mt, none⟩]) ∧
    (∀ (src mt : String) (ps : List TranslationPair),
      batchData (⟨src, mt, some ""⟩ :: ps) = ⟨src, mt, none⟩ :: batchData ps ∧
      missingRefCount (⟨src, mt, some ""⟩ :: ps) = missingRefCount (⟨src, mt, none⟩ :: ps)) ∧
    (∀ (env : Env) (t : Nat) (st : ServerState) (src mt : String) (gpu : Bool),
      model_requires_reference env.modelName = true →
      (evaluate env ⟨src, mt, some "", gpu⟩ t st).1 =
        .error ⟨400, evalRefDetail env.modelName⟩) := by
  refine ⟨fun _ _ _ _ _ _ => rfl, fun _ _ _ _ _ _ _ _ => rfl,
    fun _ _ _ => ⟨rfl, rfl⟩, fun _ _ _ => ⟨rfl, rfl⟩,
    fun env t st src mt gpu hreq => ?_⟩
  rw [evaluate_validation_rejects env ⟨src, mt, some "", gpu⟩ t st rfl hreq]

/-- Witness for C10: against the reference-mandatory model, a request
whose reference is the empty string is rejected exactly like one with no
reference at all. -/
theorem empty_reference_treated_as_absent_witness :
    (evaluate envRefReq ⟨"s", "t", some "", false⟩ 1 stZero).1 =
      .error ⟨400, evalRefDetail "wmt22-comet-da"⟩ :=
  empty_reference_treated_as_absent.2.2.2.2 envRefReq 1 stZero "s" "t" false (by decide)

/-- Witness for C4: the threshold clauses applied at the concrete boundary
scores 0.9, 0.8999, 0.7, 0.6999, 0.5 and 0.4999. -/
theorem quality_label_thresholds_witness :
    quality (9/10) = "Excellent" ∧ quality (8999/10000) = "Good" ∧
    quality (7/10) = "Good" ∧ quality (6999/10000) = "Fair" ∧
    quality (1/2) = "Fair" ∧ quality (4999/10000) = "Poor" :=
  ⟨(quality_label_thresholds (9/10)).1 (by norm_num),
   (quality_label_thresholds (8999/10000)).2.1 (by norm_num) (by norm_num),
   (quality_label_thresholds (7/10)).2.1 (by norm_num) (by norm_num),
   (quality_label_thresholds (6999/10000)).2.2.1 (by norm_num) (by norm_num),
   (quality_label_thresholds (1/2)).2.2.1 (by norm_num) (by norm_num),
   (quality_label_thresholds (4999/10000)).2.2.2.1 (by norm_num)⟩
